import Mathlib

/-
Verification of the moveitAPI Python client (src/Python/src/moveitAPI/moveit.py)
against its natural-language specification.

The embedding models the observable behaviour of each function:
  - HTTP traffic is a list of issued requests (method, url, headers); the
    remote server is a parameter mapping requested pages to page envelopes,
    and response statuses / bodies are parameters where a function inspects
    them.
  - Python runtime faults (KeyError, ValueError, TypeError, UnboundLocalError,
    an explicit raise Exception(status)) are constructors of PyError and
    functions return Except PyError.
  - The while-loops of the two listers are modelled with explicit fuel; a
    second component of None means the loop has not terminated within the
    given fuel, so non-termination is (for all fuel, second component = none).
  - Filesystem side effects of the downloader (temp-file creation, write,
    removal) are recorded as an event list.
-/

namespace MoveIt

/-- An item of a listing response (file or folder metadata), opaque here. -/
abbrev Item := String

/-- A parsed tabular dataset, opaque here (the pandas parsers are parameters). -/
abbrev Dataset := List (List String)

/-- Python runtime faults that the client code can hit. -/
inductive PyError where
  | keyError (key : String)
  | valueError
  | typeError
  | unboundLocalError
  | exception (code : Nat)
  | parseError (msg : String)
  deriving DecidableEq, Repr

/-- An HTTP request as issued by the client: method, url and headers. -/
structure HttpRequest where
  method : String
  url : String
  headers : List (String × String)
  deriving DecidableEq, Repr

/-- A JSON leaf value as found in the paging object of a listing response.
The folder lister reads these without int coercion, so the distinction
between a JSON integer and a JSON string matters. -/
inductive JVal where
  | jint (n : Int)
  | jstr (s : String)
  deriving DecidableEq, Repr

/-- Whether a JVal is a JSON integer. -/
def JVal.isInt : JVal → Bool
  | .jint _ => true
  | .jstr _ => false

/-- Python int(x): identity on an int, digit-parse on a string
(ValueError when the string is not a numeral). -/
def pyInt : JVal → Except PyError Int
  | .jint n => .ok n
  | .jstr s =>
    match s.toInt? with
    | some n => .ok n
    | none => .error .valueError

/-- Python equality between JSON leaf values: an int never equals a str. -/
def pyEqJ : JVal → JVal → Bool
  | .jint a, .jint b => a == b
  | .jstr a, .jstr b => a == b
  | _, _ => false

/-- Python x + 1 on a JSON leaf value: TypeError when x is a string. -/
def pyAddOne : JVal → Except PyError Int
  | .jint n => .ok (n + 1)
  | .jstr _ => .error .typeError

/-- Python dict subscript d[k] on a string-to-string mapping:
KeyError when the key is absent. -/
def pyDictGet (d : List (String × String)) (k : String) : Except PyError String :=
  match d.find? (fun p => p.1 == k) with
  | some p => .ok p.2
  | none => .error (.keyError k)

/-- A page envelope of a listing response: items plus the paging object. -/
structure PageEnv where
  items : List Item
  page : JVal
  totalPages : JVal

/-- Result of auth_move_it: either the error string built from the caught
HTTPError, or the parsed JSON token mapping. -/
inductive AuthRet where
  | errStr (s : String)
  | toks (t : List (String × String))
  deriving DecidableEq, Repr

/-- The auth endpoint URL built by auth_move_it. -/
def authUrl (base_url : String) : String :=
  "https://moveit." ++ base_url ++ "/api/v1/token"

/-- The message of the requests-library HTTPError raised by
raise_for_status: it fires exactly for statuses 400..599, tagging
400..499 as client errors and 500..599 as server errors. -/
def httpErrorMsg (status : Nat) (url : String) : String :=
  toString status ++
    (if status < 500 then " Client Error" else " Server Error") ++
    " for url: " ++ url

/-- auth_move_it: POSTs the credentials, calls raise_for_status (which raises
only for statuses 400..599), catches the HTTPError and returns the string
"Error: " + str(e); otherwise returns the parsed JSON body unchanged.
The response is modelled by its status and its parsed JSON body. -/
def auth_move_it (base_url : String) (status : Nat)
    (body : List (String × String)) : AuthRet :=
  let url := authUrl base_url
  if 400 ≤ status ∧ status < 600 then
    .errStr ("Error: " ++ httpErrorMsg status url)
  else
    .toks body

/-- Python bool(status in 200..299), for stating the spec claim about
non-2xx statuses. -/
def is2xx (status : Nat) : Bool :=
  decide (200 ≤ status ∧ status < 300)

/-- Normalization of the chunked flag in upload_move_it_file:
None becomes False. -/
def chunkedNorm : Option Bool → Bool
  | none => false
  | some b => b

/-- upload_move_it_file: builds the folder upload URL, the header dict
(adding Transfer-Encoding chunked when the file size is at least 40000000
bytes or the normalized chunked flag is true), POSTs the multipart body, and
raises Exception(status_code) unless the response status is 201 or 200.
The local file size and the response status are parameters. -/
def upload_move_it_file (base_url : String) (tokens : List (String × String))
    (folder_id : String) (file_path : String) (file_type : String)
    (chunked : Option Bool) (size : Nat) (respStatus : Nat) :
    List HttpRequest × Except PyError Unit :=
  let chunkedB := chunkedNorm chunked
  match pyDictGet tokens "access_token" with
  | .error e => ([], .error e)
  | .ok tv =>
    let token := "Bearer " ++ tv
    let url := "https://moveit." ++ base_url ++ "/api/v1/folders/" ++
      folder_id ++ "/files"
    let baseHeaders := [("Authorization", token), ("accept", "application/json"),
      ("Content-Type", "multipart/form-data")]
    let headers :=
      if 40000000 ≤ size ∨ chunkedB then
        baseHeaders ++ [("Transfer-Encoding", "chunked")]
      else baseHeaders
    let req : HttpRequest := ⟨"POST", url, headers⟩
    let _ := (file_path, file_type)
    if respStatus = 201 ∨ respStatus = 200 then
      ([req], .ok ())
    else
      ([req], .error (.exception respStatus))

/-- Filesystem events of the downloader, in occurrence order. -/
inductive FsEvent where
  | createTmp
  | writeTmp
  | removeTmp
  deriving DecidableEq, Repr

/-- Observable effect of read_move_it_file: the HTTP requests issued, the
filesystem events in order, and the returned dataset or raised fault. -/
structure ReadEff where
  httpReqs : List HttpRequest
  fsEvents : List FsEvent
  result : Except PyError Dataset
  deriving Repr

/-- read_move_it_file: creates a temp file, reads the access token (KeyError
propagates before any request), GETs the download URL with the bearer
header, writes the body to the temp file, parses it by file_type
(csv / txt / excel via the given parsers; any other value assigns no data),
removes the temp file, and returns data. A parser fault propagates before
the removal; an unrecognized file_type reaches the final return-with-
unassigned-local, which is an implicit UnboundLocalError after the removal.
The response body and the three pandas parsers are parameters. -/
def read_move_it_file (base_url : String) (tokens : List (String × String))
    (file_id : String) (file_type : String) (sheet_download : Option String)
    (respBody : String)
    (csvParse : String → Except PyError Dataset)
    (tsvParse : String → Except PyError Dataset)
    (excelParse : Option String → String → Except PyError Dataset) : ReadEff :=
  match pyDictGet tokens "access_token" with
  | .error e => ⟨[], [.createTmp], .error e⟩
  | .ok tv =>
    let url := "https://moveit." ++ base_url ++ "/api/v1/files/" ++
      file_id ++ "/download"
    let c_type :=
      if file_type = "excel" then
        "application/vnd.openxmlformats-officedocument.spreadsheetml.sheet"
      else "text/csv"
    let req : HttpRequest := ⟨"GET", url, [("Authorization", "Bearer " ++ tv)]⟩
    let _ := c_type
    let parsed : Option (Except PyError Dataset) :=
      if file_type = "csv" then some (csvParse respBody)
      else if file_type = "txt" then some (tsvParse respBody)
      else if file_type = "excel" then some (excelParse sheet_download respBody)
      else none
    match parsed with
    | some (.ok d) => ⟨[req], [.createTmp, .writeTmp, .removeTmp], .ok d⟩
    | some (.error e) => ⟨[req], [.createTmp, .writeTmp], .error e⟩
    | none => ⟨[req], [.createTmp, .writeTmp, .removeTmp],
        .error .unboundLocalError⟩

/-- The while-loop of available_files. State: the accumulated items and the
int-coerced page / totalPages of the latest response. Each iteration whose
guard page != totalPages holds requests url?page=(page+1) with the bearer
header, extends the items with the items of the response, and re-reads
page and totalPages through int(). Fuel bounds the number of guard checks;
a second component of none means the loop did not finish within the fuel.
The first component is the list of requests issued. -/
def filesLoop (server : Int → PageEnv) (token : String) (url : String) :
    Nat → List Item → Int → Int →
    List HttpRequest × Option (Except PyError (List Item))
  | 0, _, _, _ => ([], none)
  | fuel + 1, items, page, totalPages =>
    if page = totalPages then ([], some (.ok items))
    else
      let next_page := page + 1
      let url_page := url ++ "?page=" ++ toString next_page
      let req : HttpRequest := ⟨"GET", url_page, [("Authorization", token)]⟩
      let env := server next_page
      match pyInt env.page with
      | .error e => ([req], some (.error e))
      | .ok p =>
        match pyInt env.totalPages with
        | .error e => ([req], some (.error e))
        | .ok t =>
          let rest := filesLoop server token url fuel (items ++ env.items) p t
          (req :: rest.1, rest.2)

/-- available_files: reads the access token (KeyError propagates before any
request), GETs the files URL, extracts items and int-coerces page and
totalPages of the first response, then runs the pagination loop. The first
response and the per-page responses of the server are parameters. -/
def available_files (base_url : String) (tokens : List (String × String))
    (env0 : PageEnv) (server : Int → PageEnv) (fuel : Nat) :
    List HttpRequest × Option (Except PyError (List Item)) :=
  match pyDictGet tokens "access_token" with
  | .error e => ([], some (.error e))
  | .ok tv =>
    let token := "Bearer " ++ tv
    let url := "https://moveit." ++ base_url ++ "/api/v1/files"
    let req0 : HttpRequest := ⟨"GET", url, [("Authorization", token)]⟩
    match pyInt env0.page with
    | .error e => ([req0], some (.error e))
    | .ok p =>
      match pyInt env0.totalPages with
      | .error e => ([req0], some (.error e))
      | .ok t =>
        let rest := filesLoop server token url fuel env0.items p t
        (req0 :: rest.1, rest.2)

/-- The while-loop of available_folders. Unlike filesLoop, after each
in-loop response the page and totalPages fields are kept as raw JSON
values (no int coercion), the guard compares them with Python equality,
and page + 1 is a TypeError when page is a JSON string. On loop entry both
are the ints coerced from the first response, injected here as JVal.jint. -/
def foldersLoop (server : Int → PageEnv) (token : String) (url : String) :
    Nat → List Item → JVal → JVal →
    List HttpRequest × Option (Except PyError (List Item))
  | 0, _, _, _ => ([], none)
  | fuel + 1, items, page, totalPages =>
    if pyEqJ page totalPages then ([], some (.ok items))
    else
      match pyAddOne page with
      | .error e => ([], some (.error e))
      | .ok next_page =>
        let url_page := url ++ "?page=" ++ toString next_page
        let req : HttpRequest := ⟨"GET", url_page, [("Authorization", token)]⟩
        let env := server next_page
        let rest := foldersLoop server token url fuel (items ++ env.items)
          env.page env.totalPages
        (req :: rest.1, rest.2)

/-- available_folders: reads the access token, GETs the folders URL,
extracts items and int-coerces page and totalPages of the first response,
then runs the folder pagination loop (which keeps later paging fields
uncoerced). -/
def available_folders (base_url : String) (tokens : List (String × String))
    (env0 : PageEnv) (server : Int → PageEnv) (fuel : Nat) :
    List HttpRequest × Option (Except PyError (List Item)) :=
  match pyDictGet tokens "access_token" with
  | .error e => ([], some (.error e))
  | .ok tv =>
    let token := "Bearer " ++ tv
    let url := "https://moveit." ++ base_url ++ "/api/v1/folders"
    let req0 : HttpRequest := ⟨"GET", url, [("Authorization", token)]⟩
    match pyInt env0.page with
    | .error e => ([req0], some (.error e))
    | .ok p =>
      match pyInt env0.totalPages with
      | .error e => ([req0], some (.error e))
      | .ok t =>
        let rest := foldersLoop server token url fuel env0.items
          (.jint p) (.jint t)
        (req0 :: rest.1, rest.2)

/-- A well-behaved server: the response to a request for page n carries
items f n, page n and the fixed totalPages N, all as JSON integers. -/
def nicePage (f : Int → List Item) (N : Int) (n : Int) : PageEnv :=
  ⟨f n, .jint n, .jint N⟩

/-- Concatenation of the item lists of count consecutive pages starting at
page lo. -/
def pageConcat (f : Int → List Item) (lo : Int) : Nat → List Item
  | 0 => []
  | count + 1 => f lo ++ pageConcat f (lo + 1) count

theorem filesLoop_nice (f : Int → List Item) (N : Int) (token url : String) :
    ∀ (fuel : Nat) (p : Int) (acc : List Item), p ≤ N → (N - p).toNat < fuel →
      (filesLoop (nicePage f N) token url fuel acc p N).2
        = some (.ok (acc ++ pageConcat f (p + 1) (N - p).toNat)) := by
  intro fuel
  induction fuel with
  | zero => intro p acc _ h; omega
  | succ k ih =>
    intro p acc hpN hfuel
    by_cases hp : p = N
    · subst hp
      have h0 : (p - p).toNat = 0 := by omega
      simp [filesLoop, h0, pageConcat]
    · have hlt : p < N := lt_of_le_of_ne hpN hp
      have hsplit : (N - p).toNat = (N - (p + 1)).toNat + 1 := by omega
      simp only [filesLoop, if_neg hp, nicePage, pyInt]
      rw [ih (p + 1) (acc ++ f (p + 1)) (by omega) (by omega)]
      rw [hsplit]
      simp [pageConcat, List.append_assoc]

theorem filesLoop_stuck (token url : String) :
    ∀ (fuel : Nat) (acc : List Item),
      (filesLoop (fun _ => ⟨[], .jint 1, .jint 2⟩) token url fuel acc 1 2).2
        = none := by
  intro fuel
  induction fuel with
  | zero => intro acc; simp [filesLoop]
  | succ k ih =>
    intro acc
    simp only [filesLoop, pyInt]
    norm_num
    exact ih acc

theorem filesLoop_headers (server : Int → PageEnv) (token url : String) :
    ∀ (fuel : Nat) (acc : List Item) (p t : Int) (req : HttpRequest),
      req ∈ (filesLoop server token url fuel acc p t).1 →
      req.headers = [("Authorization", token)] := by
  intro fuel
  induction fuel with
  | zero => intro acc p t req h; simp [filesLoop] at h
  | succ k ih =>
    intro acc p t req h
    by_cases hp : p = t
    · simp [filesLoop, hp] at h
    · simp only [filesLoop, if_neg hp] at h
      cases hpage : pyInt (server (p + 1)).page with
      | error e => simp [hpage] at h; simp [h]
      | ok pN =>
        cases htp : pyInt (server (p + 1)).totalPages with
        | error e => simp [hpage, htp] at h; simp [h]
        | ok tN =>
          simp only [hpage, htp, List.mem_cons] at h
          rcases h with h | h
          · simp [h]
          · exact ih _ pN tN req h

theorem foldersLoop_headers (server : Int → PageEnv) (token url : String) :
    ∀ (fuel : Nat) (acc : List Item) (p t : JVal) (req : HttpRequest),
      req ∈ (foldersLoop server token url fuel acc p t).1 →
      req.headers = [("Authorization", token)] := by
  intro fuel
  induction fuel with
  | zero => intro acc p t req h; simp [foldersLoop] at h
  | succ k ih =>
    intro acc p t req h
    by_cases hp : pyEqJ p t = true
    · simp [foldersLoop, hp] at h
    · simp only [foldersLoop, if_neg hp] at h
      cases hadd : pyAddOne p with
      | error e => simp [hadd] at h
      | ok np =>
        simp only [hadd, List.mem_cons] at h
        rcases h with h | h
        · simp [h]
        · exact ih _ (server np).page (server np).totalPages req h

theorem loops_snd_eq (server : Int → PageEnv)
    (hs : ∀ n, ((server n).page).isInt = true ∧
      ((server n).totalPages).isInt = true)
    (token urlA urlB : String) :
    ∀ (fuel : Nat) (acc : List Item) (p t : Int),
      (foldersLoop server token urlA fuel acc (.jint p) (.jint t)).2
        = (filesLoop server token urlB fuel acc p t).2 := by
  intro fuel
  induction fuel with
  | zero => intro acc p t; simp [foldersLoop, filesLoop]
  | succ k ih =>
    intro acc p t
    by_cases hp : p = t
    · simp [foldersLoop, filesLoop, hp, pyEqJ]
    · have hne : pyEqJ (.jint p) (.jint t) = false := by
        simp [pyEqJ]; omega
      obtain ⟨k1, hk1⟩ : ∃ m, (server (p + 1)).page = .jint m := by
        cases hv : (server (p + 1)).page with
        | jint m => exact ⟨m, rfl⟩
        | jstr s => have := (hs (p + 1)).1; rw [hv] at this; simp [JVal.isInt] at this
      obtain ⟨k2, hk2⟩ : ∃ m, (server (p + 1)).totalPages = .jint m := by
        cases hv : (server (p + 1)).totalPages with
        | jint m => exact ⟨m, rfl⟩
        | jstr s => have := (hs (p + 1)).2; rw [hv] at this; simp [JVal.isInt] at this
      simp only [foldersLoop, filesLoop, hne, if_neg hp, pyAddOne,
        if_false, Bool.false_eq_true, hk1, hk2, pyInt]
      exact ih (acc ++ (server (p + 1)).items) k1 k2

/-- Concrete page items for witnesses: page 1 holds A and B, page 2 holds
C and D, page 3 holds E and F. -/
def demoPages : Int → List Item
  | 1 => ["A", "B"]
  | 2 => ["C", "D"]
  | 3 => ["E", "F"]
  | _ => []

theorem pyDictGet_single (T : String) :
    pyDictGet [("access_token", T)] "access_token" = .ok T := by
  simp [pyDictGet]

theorem filesLoop_nice_from_one (f : Int → List Item) (N : Int) (hN : 1 ≤ N)
    (token url : String) (fuel : Nat) (hfuel : N.toNat ≤ fuel) :
    (filesLoop (nicePage f N) token url fuel (f 1) 1 N).2
      = some (.ok (pageConcat f 1 N.toNat)) := by
  rw [filesLoop_nice f N token url fuel 1 (f 1) hN (by omega)]
  have hsplit : N.toNat = (N - 1).toNat + 1 := by omega
  rw [hsplit]
  norm_num [pageConcat]

theorem available_files_nice (T base : String) (f : Int → List Item) (N : Int)
    (hN : 1 ≤ N) (fuel : Nat) (hfuel : N.toNat ≤ fuel) :
    (available_files base [("access_token", T)] (nicePage f N 1)
        (nicePage f N) fuel).2 = some (.ok (pageConcat f 1 N.toNat)) := by
  simp only [available_files, pyDictGet_single, nicePage, pyInt]
  exact filesLoop_nice_from_one f N hN _ _ fuel hfuel

theorem available_folders_nice (T base : String) (f : Int → List Item) (N : Int)
    (hN : 1 ≤ N) (fuel : Nat) (hfuel : N.toNat ≤ fuel) :
    (available_folders base [("access_token", T)] (nicePage f N 1)
        (nicePage f N) fuel).2 = some (.ok (pageConcat f 1 N.toNat)) := by
  simp only [available_folders, pyDictGet_single, nicePage, pyInt]
  rw [loops_snd_eq (nicePage f N) (fun _ => ⟨rfl, rfl⟩) _ _
    ("https://moveit." ++ base ++ "/api/v1/folders") fuel (f 1) 1 N]
  exact filesLoop_nice_from_one f N hN _ _ fuel hfuel

/-- A server that never advances: every response reports page 1 of 2. -/
def stuckServer : Int → PageEnv := fun _ => ⟨[], .jint 1, .jint 2⟩

theorem available_files_stuck (T base : String) (fuel : Nat) :
    (available_files base [("access_token", T)] (stuckServer 0)
        stuckServer fuel).2 = none := by
  simp only [available_files, pyDictGet_single, stuckServer, pyInt]
  exact filesLoop_stuck _ _ fuel []

theorem available_folders_stuck (T base : String) (fuel : Nat) :
    (available_folders base [("access_token", T)] (stuckServer 0)
        stuckServer fuel).2 = none := by
  simp only [available_folders, pyDictGet_single, stuckServer, pyInt]
  rw [loops_snd_eq stuckServer (fun _ => ⟨rfl, rfl⟩) _ _
    ("https://moveit." ++ base ++ "/api/v1/folders") fuel [] 1 2]
  exact filesLoop_stuck _ _ fuel []

/-- C1: over a well-behaved sequence of page responses (page n carries
items f n, page = n, totalPages = N, for n = 1..N), each lister returns
the concatenation of the items of pages 1..N in page order; the
single-page case is the instance N = 1. -/
theorem listers_concat_pages (T base : String) (f : Int → List Item)
    (N : Int) (hN : 1 ≤ N) (fuel : Nat) (hfuel : N.toNat ≤ fuel) :
    (available_files base [("access_token", T)] (nicePage f N 1)
        (nicePage f N) fuel).2 = some (.ok (pageConcat f 1 N.toNat))
  ∧ (available_folders base [("access_token", T)] (nicePage f N 1)
        (nicePage f N) fuel).2 = some (.ok (pageConcat f 1 N.toNat)) :=
  ⟨available_files_nice T base f N hN fuel hfuel,
   available_folders_nice T base f N hN fuel hfuel⟩

/-- Witness for C1: a concrete three-page run returning the six items in
concatenation order, and a concrete single-page run returning its two
items unchanged. -/
theorem listers_concat_pages_witness :
    ((1 : Int) ≤ 3 ∧ (3 : Int).toNat ≤ 3
      ∧ (available_files "d" [("access_token", "T")]
          (nicePage demoPages 3 1) (nicePage demoPages 3) 3).2
        = some (.ok ["A", "B", "C", "D", "E", "F"]))
  ∧ ((1 : Int) ≤ 1 ∧ (1 : Int).toNat ≤ 1
      ∧ (available_folders "d" [("access_token", "T")]
          (nicePage demoPages 1 1) (nicePage demoPages 1) 1).2
        = some (.ok ["A", "B"])) := by
  constructor
  · refine ⟨by decide, by decide, ?_⟩
    have h := (listers_concat_pages "T" "d" demoPages 3 (by decide) 3
      (by decide)).1
    rw [h]
    rfl
  · refine ⟨by decide, by decide, ?_⟩
    have h := (listers_concat_pages "T" "d" demoPages 1 (by decide) 1
      (by decide)).2
    rw [h]
    rfl

/-- C2, counterexample: status 304 is not 2xx, yet auth_move_it returns the
parsed JSON token mapping, not an error string — raise_for_status fires
only for statuses 400..599, so the claim fails for non-2xx statuses
below 400. -/
theorem auth_not_error_on_304 :
    auth_move_it "example.com" 304 [("access_token", "tok")]
        = .toks [("access_token", "tok")]
      ∧ is2xx 304 = false := by
  constructor
  · rfl
  · rfl

/-- C2, amended: auth_move_it returns a descriptive error string (and does
not raise) exactly for statuses 400..599, the ones for which
raise_for_status raises HTTPError; for every other status — all 2xx
included — it returns the parsed JSON token mapping unchanged. -/
theorem auth_status_behavior (base : String) (status : Nat)
    (body : List (String × String)) :
    (400 ≤ status → status < 600 →
      auth_move_it base status body
        = .errStr ("Error: " ++ httpErrorMsg status (authUrl base)))
  ∧ (¬ (400 ≤ status ∧ status < 600) →
      auth_move_it base status body = .toks body) := by
  constructor
  · intro h1 h2
    simp [auth_move_it, h1, h2]
  · intro h
    simp [auth_move_it, h]

/-- Witness for C2: a 401 response yields the error string and a 200
response yields the token mapping. -/
theorem auth_status_behavior_witness :
    (auth_move_it "d" 401 [("access_token", "tok")]
        = .errStr ("Error: " ++ httpErrorMsg 401 (authUrl "d")))
  ∧ (auth_move_it "d" 200 [("access_token", "tok")]
        = .toks [("access_token", "tok")]) :=
  ⟨(auth_status_behavior "d" 401 [("access_token", "tok")]).1
      (by decide) (by decide),
   (auth_status_behavior "d" 200 [("access_token", "tok")]).2 (by decide)⟩

/-- C3: the pagination loop of each lister terminates with a result when
the server advances page by 1 each iteration up to totalPages (any fuel of
at least N guard checks suffices), and for the non-incrementing server
that always reports page 1 of 2 it never terminates: no fuel bound makes
the loop return. -/
theorem pager_termination_and_divergence (T base : String) :
    (∀ (f : Int → List Item) (N : Int), 1 ≤ N → ∀ fuel : Nat, N.toNat ≤ fuel →
        ((available_files base [("access_token", T)] (nicePage f N 1)
            (nicePage f N) fuel).2).isSome
      ∧ ((available_folders base [("access_token", T)] (nicePage f N 1)
            (nicePage f N) fuel).2).isSome)
  ∧ (∀ fuel : Nat,
        (available_files base [("access_token", T)] (stuckServer 0)
            stuckServer fuel).2 = none
      ∧ (available_folders base [("access_token", T)] (stuckServer 0)
            stuckServer fuel).2 = none) := by
  constructor
  · intro f N hN fuel hfuel
    constructor
    · rw [available_files_nice T base f N hN fuel hfuel]; rfl
    · rw [available_folders_nice T base f N hN fuel hfuel]; rfl
  · intro fuel
    exact ⟨available_files_stuck T base fuel, available_folders_stuck T base fuel⟩

/-- Witness for C3: a concrete two-page run terminates within fuel 2, and
the stuck server makes both listers return no result at fuel 50. -/
theorem pager_termination_and_divergence_witness :
    (((available_files "d" [("access_token", "T")] (nicePage demoPages 2 1)
        (nicePage demoPages 2) 2).2).isSome
      ∧ ((available_folders "d" [("access_token", "T")] (nicePage demoPages 2 1)
        (nicePage demoPages 2) 2).2).isSome)
  ∧ ((available_files "d" [("access_token", "T")] (stuckServer 0)
        stuckServer 50).2 = none
      ∧ (available_folders "d" [("access_token", "T")] (stuckServer 0)
        stuckServer 50).2 = none) :=
  ⟨(pager_termination_and_divergence "T" "d").1 demoPages 2 (by decide) 2
      (by decide),
   (pager_termination_and_divergence "T" "d").2 50⟩

/-- C4: whenever the local file size is at least 40000000 bytes or the
normalized chunked flag is true, the upload request carries the header
Transfer-Encoding: chunked. -/
theorem upload_chunked_header (T base folder fp ft : String)
    (chunked : Option Bool) (size st : Nat)
    (h : 40000000 ≤ size ∨ chunkedNorm chunked = true) :
    ∀ req ∈ (upload_move_it_file base [("access_token", T)] folder fp ft
        chunked size st).1,
      ("Transfer-Encoding", "chunked") ∈ req.headers := by
  intro req hreq
  simp only [upload_move_it_file, pyDictGet_single, if_pos h] at hreq
  by_cases hst : st = 201 ∨ st = 200 <;> simp [hst] at hreq <;> simp [hreq]

/-- Witness for C4: a 50000000-byte upload with chunked explicitly false
still carries the chunked transfer header. -/
theorem upload_chunked_header_witness :
    ("Transfer-Encoding", "chunked") ∈
      (HttpRequest.mk "POST"
        "https://moveit.d/api/v1/folders/7/files"
        [("Authorization", "Bearer T"), ("accept", "application/json"),
         ("Content-Type", "multipart/form-data"),
         ("Transfer-Encoding", "chunked")]).headers :=
  upload_chunked_header "T" "d" "7" "f.csv" "text/csv" (some false)
    50000000 201 (by decide)
    (HttpRequest.mk "POST"
      "https://moveit.d/api/v1/folders/7/files"
      [("Authorization", "Bearer T"), ("accept", "application/json"),
       ("Content-Type", "multipart/form-data"),
       ("Transfer-Encoding", "chunked")])
    (by simp [upload_move_it_file, pyDictGet_single])

/-- C5: the upload returns normally exactly when the response status is
200 or 201; any other status raises Exception(status), an error whose only
payload is the numeric status code. -/
theorem upload_status_result (T base folder fp ft : String)
    (chunked : Option Bool) (size st : Nat) :
    (upload_move_it_file base [("access_token", T)] folder fp ft
        chunked size st).2
      = if st = 201 ∨ st = 200 then .ok () else .error (.exception st) := by
  by_cases hst : st = 201 ∨ st = 200 <;>
    simp [upload_move_it_file, pyDictGet_single, hst]

/-- C6: a download with a file_type other than csv, txt or excel falls
through the parse branches: no dataset is produced and no explicit error
is raised — the run ends in the implicit UnboundLocalError of returning
the never-assigned data variable. -/
theorem download_unknown_format_fallthrough (T base fid : String)
    (sheet : Option String) (body : String)
    (cP tP : String → Except PyError Dataset)
    (eP : Option String → String → Except PyError Dataset) (ftype : String)
    (h1 : ftype ≠ "csv") (h2 : ftype ≠ "txt") (h3 : ftype ≠ "excel") :
    (read_move_it_file base [("access_token", T)] fid ftype sheet body
        cP tP eP).result = .error .unboundLocalError := by
  simp [read_move_it_file, pyDictGet_single, h1, h2, h3]

/-- Witness for C6: a download requesting format json produces the implicit
fault, not a dataset and not an explicitly raised error. -/
theorem download_unknown_format_fallthrough_witness :
    ("json" ≠ "csv" ∧ "json" ≠ "txt" ∧ "json" ≠ "excel")
  ∧ (read_move_it_file "d" [("access_token", "T")] "9" "json" none "x"
        (fun _ => .ok []) (fun _ => .ok []) (fun _ _ => .ok [])).result
      = .error .unboundLocalError :=
  ⟨⟨by decide, by decide, by decide⟩,
   download_unknown_format_fallthrough "T" "d" "9" none "x"
     (fun _ => .ok []) (fun _ => .ok []) (fun _ _ => .ok []) "json"
     (by decide) (by decide) (by decide)⟩

/-- C7: with a token mapping whose access_token is T, every HTTP request
issued by available_files, available_folders, read_move_it_file and
upload_move_it_file — the per-page requests of the pagination loops
included — carries the header Authorization: Bearer T. -/
theorem auth_header_on_all_requests (T base : String) :
    (∀ (env0 : PageEnv) (server : Int → PageEnv) (fuel : Nat)
        (req : HttpRequest),
      req ∈ (available_files base [("access_token", T)] env0 server fuel).1 →
      ("Authorization", "Bearer " ++ T) ∈ req.headers)
  ∧ (∀ (env0 : PageEnv) (server : Int → PageEnv) (fuel : Nat)
        (req : HttpRequest),
      req ∈ (available_folders base [("access_token", T)] env0 server fuel).1 →
      ("Authorization", "Bearer " ++ T) ∈ req.headers)
  ∧ (∀ (fid ftype : String) (sheet : Option String) (body : String)
        (cP tP : String → Except PyError Dataset)
        (eP : Option String → String → Except PyError Dataset)
        (req : HttpRequest),
      req ∈ (read_move_it_file base [("access_token", T)] fid ftype sheet
        body cP tP eP).httpReqs →
      ("Authorization", "Bearer " ++ T) ∈ req.headers)
  ∧ (∀ (folder fp ft : String) (chunked : Option Bool) (size st : Nat)
        (req : HttpRequest),
      req ∈ (upload_move_it_file base [("access_token", T)] folder fp ft
        chunked size st).1 →
      ("Authorization", "Bearer " ++ T) ∈ req.headers) := by
  refine ⟨?_, ?_, ?_, ?_⟩
  · intro env0 server fuel req hreq
    simp only [available_files, pyDictGet_single] at hreq
    cases hp : pyInt env0.page with
    | error e => simp [hp] at hreq; simp [hreq]
    | ok p =>
      cases ht : pyInt env0.totalPages with
      | error e => simp [hp, ht] at hreq; simp [hreq]
      | ok t =>
        simp only [hp, ht, List.mem_cons] at hreq
        rcases hreq with h | h
        · simp [h]
        · rw [filesLoop_headers server _ _ fuel env0.items p t req h]
          simp
  · intro env0 server fuel req hreq
    simp only [available_folders, pyDictGet_single] at hreq
    cases hp : pyInt env0.page with
    | error e => simp [hp] at hreq; simp [hreq]
    | ok p =>
      cases ht : pyInt env0.totalPages with
      | error e => simp [hp, ht] at hreq; simp [hreq]
      | ok t =>
        simp only [hp, ht, List.mem_cons] at hreq
        rcases hreq with h | h
        · simp [h]
        · rw [foldersLoop_headers server _ _ fuel env0.items (.jint p)
            (.jint t) req h]
          simp
  · intro fid ftype sheet body cP tP eP req hreq
    simp only [read_move_it_file, pyDictGet_single] at hreq
    split at hreq <;> simp at hreq <;> simp [hreq]
  · intro folder fp ft chunked size st req hreq
    simp only [upload_move_it_file, pyDictGet_single] at hreq
    by_cases hst : st = 201 ∨ st = 200 <;> simp [hst] at hreq <;>
      by_cases hch : 40000000 ≤ size ∨ chunkedNorm chunked = true <;>
      simp [hch] at hreq <;> simp [hreq]

/-- Witness for C7: in a concrete single-page files run and a concrete
upload, the one request issued carries the bearer header. -/
theorem auth_header_on_all_requests_witness :
    ("Authorization", "Bearer " ++ "T") ∈
      (HttpRequest.mk "GET" "https://moveit.d/api/v1/files"
        [("Authorization", "Bearer T")]).headers
  ∧ ("Authorization", "Bearer " ++ "T") ∈
      (HttpRequest.mk "POST" "https://moveit.d/api/v1/folders/7/files"
        [("Authorization", "Bearer T"), ("accept", "application/json"),
         ("Content-Type", "multipart/form-data")]).headers :=
  ⟨(auth_header_on_all_requests "T" "d").1 (nicePage demoPages 1 1)
      (nicePage demoPages 1) 1
      (HttpRequest.mk "GET" "https://moveit.d/api/v1/files"
        [("Authorization", "Bearer T")])
      (by simp [available_files, pyDictGet_single, nicePage, pyInt,
            filesLoop]),
   (auth_header_on_all_requests "T" "d").2.2.2 "7" "f.csv" "text/csv"
      none 3 200
      (HttpRequest.mk "POST" "https://moveit.d/api/v1/folders/7/files"
        [("Authorization", "Bearer T"), ("accept", "application/json"),
         ("Content-Type", "multipart/form-data")])
      (by simp [upload_move_it_file, pyDictGet_single, chunkedNorm])⟩

/-- C8: over any server whose page responses carry paging.page and
paging.totalPages as JSON integers, available_folders and available_files
are equivalent pagers: same first response, same per-page responses, same
fuel give the same outcome (same item concatenation, same fault, or
non-termination of both), despite the folder variant reading the in-loop
paging fields without int coercion. -/
theorem listers_equivalent_on_int_paging (T base : String) (env0 : PageEnv)
    (server : Int → PageEnv)
    (hs : ∀ n, ((server n).page).isInt = true ∧
      ((server n).totalPages).isInt = true) (fuel : Nat) :
    (available_folders base [("access_token", T)] env0 server fuel).2
      = (available_files base [("access_token", T)] env0 server fuel).2 := by
  simp only [available_folders, available_files, pyDictGet_single]
  cases hp : pyInt env0.page with
  | error e => rfl
  | ok p =>
    cases ht : pyInt env0.totalPages with
    | error e => rfl
    | ok t =>
      exact loops_snd_eq server hs _ _ _ fuel env0.items p t

/-- Witness for C8: on a concrete integer-paged two-page server the two
listers produce the same outcome. -/
theorem listers_equivalent_on_int_paging_witness :
    (available_folders "d" [("access_token", "T")] (nicePage demoPages 2 1)
        (nicePage demoPages 2) 2).2
      = (available_files "d" [("access_token", "T")] (nicePage demoPages 2 1)
        (nicePage demoPages 2) 2).2 :=
  listers_equivalent_on_int_paging "T" "d" (nicePage demoPages 2 1)
    (nicePage demoPages 2) (fun _ => ⟨rfl, rfl⟩) 2

/-- C9: when the file_type is csv, txt or excel and the matching parser
succeeds, the downloader removes the transient file (the removal event is
recorded after create and write, before the function returns) and returns
the parsed dataset. -/
theorem download_success_removes_tmpfile (T base fid : String)
    (sheet : Option String) (body : String)
    (cP tP : String → Except PyError Dataset)
    (eP : Option String → String → Except PyError Dataset)
    (ftype : String) (d : Dataset)
    (h : (ftype = "csv" ∧ cP body = .ok d)
      ∨ (ftype = "txt" ∧ tP body = .ok d)
      ∨ (ftype = "excel" ∧ eP sheet body = .ok d)) :
    (read_move_it_file base [("access_token", T)] fid ftype sheet body
        cP tP eP).fsEvents = [.createTmp, .writeTmp, .removeTmp]
  ∧ (read_move_it_file base [("access_token", T)] fid ftype sheet body
        cP tP eP).result = .ok d := by
  rcases h with ⟨hf, hp⟩ | ⟨hf, hp⟩ | ⟨hf, hp⟩ <;> subst hf <;>
    simp [read_move_it_file, pyDictGet_single, hp]

/-- Witness for C9: a concrete csv download whose parse succeeds removes
the temp file and returns the dataset. -/
theorem download_success_removes_tmpfile_witness :
    (read_move_it_file "d" [("access_token", "T")] "9" "csv" none "a,b"
        (fun _ => .ok [["a", "b"]]) (fun _ => .ok [])
        (fun _ _ => .ok [])).fsEvents
      = [.createTmp, .writeTmp, .removeTmp]
  ∧ (read_move_it_file "d" [("access_token", "T")] "9" "csv" none "a,b"
        (fun _ => .ok [["a", "b"]]) (fun _ => .ok [])
        (fun _ _ => .ok [])).result = .ok [["a", "b"]] :=
  download_success_removes_tmpfile "T" "d" "9" none "a,b"
    (fun _ => .ok [["a", "b"]]) (fun _ => .ok []) (fun _ _ => .ok [])
    "csv" [["a", "b"]] (.inl ⟨rfl, rfl⟩)

/-- C10: a token mapping without the access_token key makes each of the
four authenticated operations fail with KeyError "access_token" while
issuing no HTTP request at all. -/
theorem missing_token_no_request (tokens : List (String × String))
    (hmiss : pyDictGet tokens "access_token"
      = .error (.keyError "access_token"))
    (base fid ftype folder fp ft : String) (sheet : Option String)
    (body : String) (cP tP : String → Except PyError Dataset)
    (eP : Option String → String → Except PyError Dataset)
    (chunked : Option Bool) (size st : Nat) (env0 : PageEnv)
    (server : Int → PageEnv) (fuel : Nat) :
    available_files base tokens env0 server fuel
        = ([], some (.error (.keyError "access_token")))
  ∧ available_folders base tokens env0 server fuel
        = ([], some (.error (.keyError "access_token")))
  ∧ ((read_move_it_file base tokens fid ftype sheet body cP tP eP).httpReqs
        = []
      ∧ (read_move_it_file base tokens fid ftype sheet body cP tP eP).result
        = .error (.keyError "access_token"))
  ∧ upload_move_it_file base tokens folder fp ft chunked size st
        = ([], .error (.keyError "access_token")) := by
  refine ⟨?_, ?_, ⟨?_, ?_⟩, ?_⟩ <;>
    simp [available_files, available_folders, read_move_it_file,
      upload_move_it_file, hmiss]

/-- Witness for C10: the empty token mapping triggers the KeyError with an
empty request trace in all four operations. -/
theorem missing_token_no_request_witness :
    pyDictGet [] "access_token" = .error (.keyError "access_token")
  ∧ available_files "d" [] (nicePage demoPages 1 1) (nicePage demoPages 1) 1
      = ([], some (.error (.keyError "access_token")))
  ∧ upload_move_it_file "d" [] "7" "f" "t" none 3 200
      = ([], .error (.keyError "access_token")) := by
  refine ⟨by simp [pyDictGet], ?_, ?_⟩
  · exact (missing_token_no_request [] (by simp [pyDictGet]) "d" "9" "csv"
      "7" "f" "t" none "x" (fun _ => .ok []) (fun _ => .ok [])
      (fun _ _ => .ok []) none 3 200 (nicePage demoPages 1 1)
      (nicePage demoPages 1) 1).1
  · exact (missing_token_no_request [] (by simp [pyDictGet]) "d" "9" "csv"
      "7" "f" "t" none "x" (fun _ => .ok []) (fun _ => .ok [])
      (fun _ _ => .ok []) none 3 200 (nicePage demoPages 1 1)
      (nicePage demoPages 1) 1).2.2.2

end MoveIt
